import Mathlib

/-!
Shallow embedding of the TravelPlannerMS composite service
(`src/http-client.ts`, `src/services.ts`, `src/routes/composite.ts` —
the routes file shipped as `src/server.ts` in this snapshot).

Modelling conventions:
* JavaScript strings-or-undefined become `Option String`; JS truthiness of
  such a value (`undefined`, `null` and `""` are falsy) is `truthy`.
* JS numbers that can be `NaN` become `JNum := Option ℚ` with `none = NaN`;
  the arithmetic used by the code (`-`, `*`, `+`, `/const`, `Math.ceil`,
  `<=`) is NaN-propagating, exactly as in IEEE semantics for the exact
  decimal values that occur here.
* Upstream HTTP calls are an explicit environment `Env`; every operation
  returns the list of upstream calls it issued (its trace) next to its
  result, so that "no call was made" claims are statable.
* A thrown JS error is the `Except.error` side of `Except JsError α`;
  `HttpClient` failures carry status, status text and URL and render their
  `message` exactly as `http-client.ts` builds it.
-/

/-- JS truthiness for a string-or-undefined value: `undefined` and `""`
are falsy, any other string is truthy. -/
def truthy : Option String → Bool
  | none => false
  | some s => s != ""

/-- String interpolation of a string-or-undefined value: JS renders
`undefined` as the literal text "undefined" inside a template string. -/
def orUndef : Option String → String
  | none => "undefined"
  | some s => s

/-- Predicate `startsWithChars sub cs`: true when `sub` is an initial run of `cs`. -/
def startsWithChars : List Char → List Char → Bool
  | [], _ => true
  | _ :: _, [] => false
  | x :: xs, y :: ys => x == y && startsWithChars xs ys

/-- Predicate `hasSubChars sub cs`: true when `sub` occurs contiguously in `cs`. -/
def hasSubChars (sub : List Char) : List Char → Bool
  | [] => startsWithChars sub []
  | y :: t => startsWithChars sub (y :: t) || hasSubChars sub t

/-- Model of JS `String.prototype.includes`: substring containment. -/
def strIncludes (s sub : String) : Bool :=
  hasSubChars sub.toList s.toList

/-- Value of a digit run, most significant first. -/
def digitsToNat (cs : List Char) : Nat :=
  cs.foldl (fun n c => n * 10 + (c.toNat - 48)) 0

/-- Longest initial digit run of a character list, with the rest. -/
def spanDigits : List Char → List Char × List Char
  | [] => ([], [])
  | c :: cs =>
    if c.isDigit then
      let p := spanDigits cs
      (c :: p.1, p.2)
    else ([], c :: cs)

/-- Core of JS `parseFloat` on the plain decimal forms the upstream
contract uses for `price_per_night` (optional sign, digits, optional
fractional part); `none` models `NaN` (no numeric prefix at all). -/
def parseFloatCore (cs : List Char) : Option ℚ :=
  let sgn : ℚ × List Char :=
    match cs with
    | '-' :: t => (-1, t)
    | '+' :: t => (1, t)
    | t => (1, t)
  let ip := spanDigits sgn.2
  let fp : List Char :=
    match ip.2 with
    | '.' :: t => (spanDigits t).1
    | _ => []
  if ip.1.isEmpty && fp.isEmpty then none
  else
    some (sgn.1 * ((digitsToNat ip.1 : ℚ) +
      (digitsToNat fp : ℚ) / (10 : ℚ) ^ fp.length))

/-- Model of JS `parseFloat` (decimal forms; leading whitespace skipped). -/
def parseFloatQ (s : String) : Option ℚ :=
  parseFloatCore (s.toList.dropWhile Char.isWhitespace)

/-- Days in a month of the proleptic Gregorian calendar. -/
def daysInMonth (y m : Nat) : Nat :=
  if m == 2 then
    if y % 4 == 0 && (y % 100 != 0 || y % 400 == 0) then 29 else 28
  else if m == 4 || m == 6 || m == 9 || m == 11 then 30
  else 31

/-- Days from the Unix epoch to the civil date y-m-d (standard civil
calendar conversion, as used by JS `Date.UTC`). -/
def daysFromCivil (y m d : Int) : Int :=
  let y1 := if m ≤ 2 then y - 1 else y
  let era := Int.fdiv y1 400
  let yoe := y1 - era * 400
  let mp := if m > 2 then m - 3 else m + 9
  let doy := (153 * mp + 2) / 5 + d - 1
  let doe := yoe * 365 + yoe / 4 - yoe / 100 + doy
  era * 146097 + doe - 719468

/-- Model of `new Date(s).getTime()` for the ISO `YYYY-MM-DD` date-only
strings this service receives: UTC midnight in epoch milliseconds; any
other string is out of the modelled grammar and yields `none`
(an Invalid Date, whose time value is `NaN`). -/
def parseDateMs (s : String) : Option Int :=
  match s.toList with
  | [y1, y2, y3, y4, '-', m1, m2, '-', d1, d2] =>
    if [y1, y2, y3, y4, m1, m2, d1, d2].all Char.isDigit then
      let y := digitsToNat [y1, y2, y3, y4]
      let m := digitsToNat [m1, m2]
      let d := digitsToNat [d1, d2]
      if 1 ≤ m && m ≤ 12 && 1 ≤ d && d ≤ daysInMonth y m then
        some (daysFromCivil y m d * 86400000)
      else none
    else none
  | _ => none

/-- Model of `new Date(x).getTime()` for a string-or-undefined field
(`new Date(undefined)` is an Invalid Date, so `NaN`). -/
def jDate (o : Option String) : Option Int :=
  o.bind parseDateMs

/-- A JS number that may be `NaN` (`none`). -/
abbrev JNum := Option ℚ

/-- NaN-propagating subtraction. -/
def jsub : JNum → JNum → JNum
  | some a, some b => some (a - b)
  | _, _ => none

/-- NaN-propagating addition. -/
def jadd : JNum → JNum → JNum
  | some a, some b => some (a + b)
  | _, _ => none

/-- NaN-propagating multiplication. -/
def jmul : JNum → JNum → JNum
  | some a, some b => some (a * b)
  | _, _ => none

/-- NaN-propagating division by a nonzero constant. -/
def jdivC (x : JNum) (c : ℚ) : JNum :=
  match x with
  | some a => some (a / c)
  | none => none

/-- Model of `Math.ceil`, NaN-propagating. -/
def jceil : JNum → JNum
  | some a => some ((⌈a⌉ : ℤ) : ℚ)
  | none => none

/-- The epoch-milliseconds value of a date field, as a JS number. -/
def jDateNum (o : Option String) : JNum :=
  match jDate o with
  | some i => some (i : ℚ)
  | none => none

/-- Model of `reduce((sum, x) => sum + x, 0)` over JS numbers. -/
def jsum (l : List JNum) : JNum :=
  l.foldl jadd (some 0)

example : parseDateMs "2024-01-01" = some 1704067200000 := by decide
example : parseDateMs "2024-01-04" = some 1704326400000 := by decide

/-! ## Domain data -/

/-- Error thrown by `HttpClient` (`http-client.ts` lines 13-15) or by the
transport itself (a network failure, whose message carries no HTTP parts). -/
inductive JsError where
  | http (status : Nat) (statusText : String) (url : String)
  | net (msg : String)
  deriving DecidableEq, Repr

/-- The `message` property of a thrown error; for `HttpClient` failures it
is built exactly as in `http-client.ts`:
`` `HTTP ${response.status}: ${response.statusText} from ${url}` ``. -/
def JsError.message : JsError → String
  | .http status statusText url =>
    "HTTP " ++ toString status ++ ": " ++ statusText ++ " from " ++ url
  | .net m => m

/-- A city object returned by the destinations service (the fields the
routes read: `name`, `country_code`, `currency`, plus its `id`). -/
structure City where
  id : String
  name : String
  country_code : String
  currency : String
  deriving DecidableEq, Repr

/-- A season object returned by the destinations service; grouped by its
`city_id`. -/
structure Season where
  id : String
  city_id : String
  deriving DecidableEq, Repr

/-- A lodging class as returned by `GET /lodging-classes`: either a bare
string or an object carrying a `class_name` field. -/
inductive LodgingClass where
  | str (s : String)
  | obj (class_name : String)
  deriving DecidableEq, Repr

/-- The membership test of `validateLodgingClass` (`server.ts` lines 36-38):
`typeof lc === 'string' ? lc === lodgingClass : lc.class_name === lodgingClass`. -/
def lcMatch (lc : LodgingClass) (name : String) : Bool :=
  match lc with
  | .str s => s == name
  | .obj cn => cn == name

/-- The class name under either representation. -/
def lcName : LodgingClass → String
  | .str s => s
  | .obj cn => cn

/-- A rate object returned by `GET /rates?...`; `price_per_night` is a
numeric string per the upstream contract. -/
structure Rate where
  price_per_night : String
  deriving DecidableEq, Repr

/-- An itinerary segment as this service sees it on its wire: each field a
string or absent (absent also models `null`/empty, which are falsy). -/
structure Segment where
  id : Option String := none
  city_id : Option String := none
  lodging_class : Option String := none
  start_date : Option String := none
  end_date : Option String := none
  deriving DecidableEq, Repr

/-- Result shape of `validateCityExists` / `validateLodgingClass`. -/
structure CheckResult where
  valid : Bool
  error : Option String := none
  deriving DecidableEq, Repr

/-- Result shape of `validateSegment`. -/
structure SegResult where
  valid : Bool
  errors : List String
  deriving DecidableEq, Repr

/-- Opaque itinerary payload posted to the itineraries service. -/
structure ItinData where
  payload : String := ""
  deriving DecidableEq, Repr

/-- The itinerary object the itineraries service returns from a create;
the route reads its `id` (`createdItinerary.id`). -/
structure CreatedItin where
  id : String
  payload : String := ""
  deriving DecidableEq, Repr

/-- An upstream list endpoint's response: either a bare array or a
`{data: [...]}` paginated wrapper (`server.ts` lines 139-140). -/
inductive Paged (α : Type) where
  | bare (xs : List α)
  | wrapped (xs : List α)
  deriving DecidableEq, Repr

/-- Model of `response.data || response`: the wrapped `data` when present (an array
is always truthy, even empty), else the bare response. -/
def Paged.unwrap : Paged α → List α
  | .bare xs => xs
  | .wrapped xs => xs

/-- Minimal JS value universe for the object-level route
(`GET /itineraries/:id`), whose frame behaviour needs open records. -/
inductive JVal where
  | str (s : String)
  | arr (xs : List JVal)
  | obj (fields : List (String × JVal))

/-- A JS object as an ordered association list with unique keys. -/
abbrev JObj := List (String × JVal)

/-- Property lookup on a JS object. -/
def getF : JObj → String → Option JVal
  | [], _ => none
  | (k, v) :: t, key => if k == key then some v else getF t key

/-- Property update as in an object literal: an existing key keeps its
position and gets the new value, a new key is appended. -/
def setF : JObj → String → JVal → JObj
  | [], k, v => [(k, v)]
  | (k1, v1) :: t, k, v =>
    if k1 == k then (k, v) :: t else (k1, v1) :: setF t k v

/-- Template-string coercion of a property value
(`` `${segment.city_id}` ``): a string renders as itself, `undefined` as
"undefined"; the non-string shapes never occur in the modelled traffic. -/
def strOf : Option JVal → String
  | some (.str s) => s
  | some (.arr _) => ""
  | some (.obj _) => "[object Object]"
  | none => "undefined"

/-- JSON encoding of a rate object as a JS value. -/
def rateJ (r : Rate) : JVal :=
  .obj [("price_per_night", .str r.price_per_night)]

/-! ## Upstream environment and call traces -/

/-- One upstream HTTP call, as issued by the routes. -/
inductive Call where
  | getCity (cityId : String)
  | getLodgingClasses
  | getRates (cityId lodgingClass : String)
  | getItineraryObj (itineraryId : String)
  | getSegments (itineraryId : String)
  | getSegmentsObj (itineraryId : String)
  | getCitiesPage
  | getSeasonsPage
  | postItinerary (body : ItinData)
  | postSegment (itineraryId : String) (body : Segment)
  deriving DecidableEq, Repr

/-- Whether a call writes upstream state (a POST). -/
def Call.isWrite : Call → Bool
  | .postItinerary _ => true
  | .postSegment _ _ => true
  | _ => false

/-- The three upstream services. -/
inductive Svc where
  | destinations
  | pricing
  | itineraries
  deriving DecidableEq, Repr

/-- Which service a call goes to (per `services.ts` client bindings). -/
def Call.service : Call → Svc
  | .getCity _ => .destinations
  | .getCitiesPage => .destinations
  | .getSeasonsPage => .destinations
  | .getLodgingClasses => .pricing
  | .getRates _ _ => .pricing
  | .getItineraryObj _ => .itineraries
  | .getSegments _ => .itineraries
  | .getSegmentsObj _ => .itineraries
  | .postItinerary _ => .itineraries
  | .postSegment _ _ => .itineraries

/-- The upstream world: the response each endpoint would give. The two
`/itineraries/{id}`-family endpoints appear twice, once decoded at the
granularity the quotes route reads (typed segments) and once at the
granularity the enrichment route reads (open JS objects); both model the
same wire data. -/
structure Env where
  getCity : String → Except JsError City
  getLodgingClasses : Except JsError (List LodgingClass)
  getRates : String → String → Except JsError (List Rate)
  getItineraryObj : String → Except JsError JObj
  getSegments : String → Except JsError (List Segment)
  getSegmentsObj : String → Except JsError (List JObj)
  getCitiesPage : Except JsError (Paged City)
  getSeasonsPage : Except JsError (Paged Season)
  postItinerary : ItinData → Except JsError CreatedItin
  postSegment : String → Segment → Except JsError Segment

/-- Decidable equality of results, so that concrete runs evaluate. -/
instance {ε α : Type} [DecidableEq ε] [DecidableEq α] : DecidableEq (Except ε α)
  | .ok a, .ok b =>
    if h : a = b then .isTrue (by rw [h]) else .isFalse (by simp [h])
  | .ok _, .error _ => .isFalse (by simp)
  | .error _, .ok _ => .isFalse (by simp)
  | .error e, .error f =>
    if h : e = f then .isTrue (by rw [h]) else .isFalse (by simp [h])

/-- First rejection of a `Promise.all` group, determinized to list order. -/
def firstError : List (Except JsError α) → Option JsError
  | [] => none
  | .error e :: _ => some e
  | .ok _ :: t => firstError t

/-- The resolved values of a `Promise.all` group that did not reject. -/
def allOks : List (Except JsError α) → List α
  | [] => []
  | .ok a :: t => a :: allOks t
  | .error _ :: t => allOks t

/-! ## Validation engine (`server.ts` lines 19-88) -/

/-- Embedding of `validateCityExists` (lines 19-29): issues the city read; a thrown
error whose message includes "404" becomes a structured invalid result,
any other thrown error is re-thrown. -/
def validateCityExists (env : Env) (cityId : String) :
    List Call × Except JsError CheckResult :=
  ([.getCity cityId],
    match env.getCity cityId with
    | .ok _ => .ok { valid := true }
    | .error e =>
      if strIncludes e.message "404" then
        .ok { valid := false,
              error := some ("City with ID '" ++ cityId ++ "' does not exist") }
      else .error e)

/-- Embedding of `validateLodgingClass` (lines 32-46): reads the class list, tests
membership under both representations; absence is a structured invalid
result, a thrown error is re-thrown unchanged. -/
def validateLodgingClass (env : Env) (lodgingClass : String) :
    List Call × Except JsError CheckResult :=
  ([.getLodgingClasses],
    match env.getLodgingClasses with
    | .error e => .error e
    | .ok classes =>
      if classes.any (fun lc => lcMatch lc lodgingClass) then
        .ok { valid := true }
      else
        .ok { valid := false,
              error := some ("Lodging class '" ++ lodgingClass ++ "' does not exist") })

/-- Embedding of `validateSegment` (lines 49-88): accumulates field-presence errors,
the two upstream reference checks (issued sequentially, each only when its
field is truthy), and the date-ordering check; a thrown upstream error
aborts the whole validation at that point. -/
def validateSegment (env : Env) (segment : Segment) :
    List Call × Except JsError SegResult :=
  let cityStep : List Call × Except JsError (List String) :=
    if truthy segment.city_id then
      let r := validateCityExists env (orUndef segment.city_id)
      (r.1, r.2.map (fun c => if c.valid then [] else [c.error.getD ""]))
    else ([], .ok ["Segment missing city_id"])
  match cityStep with
  | (t1, .error e) => (t1, .error e)
  | (t1, .ok errs1) =>
    let lodgingStep : List Call × Except JsError (List String) :=
      if truthy segment.lodging_class then
        let r := validateLodgingClass env (orUndef segment.lodging_class)
        (r.1, r.2.map (fun c => if c.valid then [] else [c.error.getD ""]))
      else ([], .ok ["Segment missing lodging_class"])
    match lodgingStep with
    | (t2, .error e) => (t1 ++ t2, .error e)
    | (t2, .ok errs2) =>
      let errs3 := if truthy segment.start_date then [] else ["Segment missing start_date"]
      let errs4 := if truthy segment.end_date then [] else ["Segment missing end_date"]
      let errs5 :=
        if truthy segment.start_date && truthy segment.end_date then
          match jDate segment.start_date, jDate segment.end_date with
          | some s, some e => if e ≤ s then ["end_date must be after start_date"] else []
          | _, _ => []
        else []
      let errs := errs1 ++ errs2 ++ errs3 ++ errs4 ++ errs5
      (t1 ++ t2, .ok { valid := errs.isEmpty, errors := errs })

/-! ## Orchestrator: the four composite routes -/

/-- Response of `GET /composite/itineraries/:id`. -/
inductive ItinResp where
  | ok (body : JObj)
  | serverError (msg : String)

/-- Response of `GET /composite/destinations`. -/
inductive DestResp where
  | ok (body : List (City × List Season))
  | serverError (msg : String)
  deriving DecidableEq, Repr

/-- Response of `POST /composite/itineraries`. -/
inductive CreateResp where
  | missingItinerary
  | validationFailed (details : List (Nat × List String))
  | created (itin : CreatedItin) (segments : List Segment)
  | serverError (msg : String)
  deriving DecidableEq, Repr

/-- One segment's quote in the quotes response (`server.ts` lines 246-254). -/
structure Quote where
  segment_id : Option String
  city_name : String
  lodging_class : Option String
  nights : JNum
  price_per_night : JNum
  currency : String
  total : JNum
  deriving DecidableEq, Repr

/-- Response of `GET /composite/quotes/:itinerary_id`; the empty-itinerary
fast path returns a body without an `itinerary_id` field, modelled as
`none` there. -/
inductive QuotesResp where
  | ok (itinerary_id : Option String) (total : JNum) (segments : List Quote)
  | serverError (msg : String)
  deriving DecidableEq, Repr

/-- Per-segment enrichment of `GET /composite/itineraries/:id`
(`server.ts` lines 103-116): fetch city and rates in parallel, then spread
the segment and add `city_name`, `country_code`, `currency`, `rates`. -/
def enrichFields (city : City) (rates : List Rate) (segObj : JObj) : JObj :=
  setF (setF (setF (setF segObj
    "city_name" (.str city.name))
    "country_code" (.str city.country_code))
    "currency" (.str city.currency))
    "rates" (.arr (rates.map rateJ))

/-- The per-segment fetch half of the enrichment: city and rates in
parallel, then the object literal above; an upstream rejection rejects
the segment's promise. -/
def enrichSegment (env : Env) (segObj : JObj) :
    List Call × Except JsError JObj :=
  let cid := strOf (getF segObj "city_id")
  let lc := strOf (getF segObj "lodging_class")
  ([.getCity cid, .getRates cid lc],
    match env.getCity cid, env.getRates cid lc with
    | .error e, _ => .error e
    | .ok _, .error e => .error e
    | .ok city, .ok rates => .ok (enrichFields city rates segObj))

/-- Embedding of `GET /composite/itineraries/:id` (`server.ts` lines 91-127): itinerary
and segment list in parallel, then per-segment enrichment in parallel;
any upstream failure becomes a 500 with the failure's message. -/
def getCompositeItinerary (env : Env) (itineraryId : String) :
    List Call × ItinResp :=
  let t0 : List Call := [.getItineraryObj itineraryId, .getSegmentsObj itineraryId]
  match env.getItineraryObj itineraryId, env.getSegmentsObj itineraryId with
  | .error e, _ => (t0, .serverError e.message)
  | .ok _, .error e => (t0, .serverError e.message)
  | .ok itinerary, .ok segments =>
    let per := segments.map (enrichSegment env)
    let trace := t0 ++ (per.map Prod.fst).flatten
    match firstError (per.map Prod.snd) with
    | some e => (trace, .serverError e.message)
    | none =>
      (trace, .ok (setF itinerary "segments"
        (.arr ((allOks (per.map Prod.snd)).map JVal.obj))))

/-- The city → seasons grouping of `GET /composite/destinations`
(`server.ts` lines 143-149), as the lookup the built object supports:
`reduce` pushes each season onto its city's list in input order. -/
def seasonsByCity (seasons : List Season) : String → List Season :=
  seasons.foldl
    (fun acc season => fun k =>
      if k == season.city_id then acc k ++ [season] else acc k)
    (fun _ => [])

/-- Embedding of `GET /composite/destinations` (`server.ts` lines 130-162): cities and
seasons in parallel, defensive `{data: [...]}` unwrapping, group seasons
by `city_id`, enrich each city with its seasons (or `[]`). -/
def getDestinations (env : Env) : List Call × DestResp :=
  let trace : List Call := [.getCitiesPage, .getSeasonsPage]
  match env.getCitiesPage, env.getSeasonsPage with
  | .error e, _ => (trace, .serverError e.message)
  | .ok _, .error e => (trace, .serverError e.message)
  | .ok citiesResponse, .ok seasonsResponse =>
    let cities := citiesResponse.unwrap
    let seasons := seasonsResponse.unwrap
    (trace, .ok (cities.map (fun city =>
      (city, seasonsByCity seasons city.id))))

/-- The request body of `POST /composite/itineraries`: `segments = none`
models an absent or non-array value (both skip the segment phases). -/
structure CreateReq where
  itinerary : Option ItinData
  segments : Option (List Segment)

/-- The segment list when present, else `[]`. -/
def CreateReq.segs (req : CreateReq) : List Segment :=
  req.segments.getD []

/-- Embedding of `POST /composite/itineraries` (`server.ts` lines 165-214): validate
all segments concurrently (each result tagged with its original index);
if any is invalid answer 400 with the indexed details and create nothing;
otherwise create the itinerary, then all segments concurrently. -/
def createItinerary (env : Env) (req : CreateReq) : List Call × CreateResp :=
  match req.itinerary with
  | none => ([], .missingItinerary)
  | some itinerary =>
    let segs := req.segs
    let validation : List Call × Except JsError (List (Nat × SegResult)) :=
      if segs.length > 0 then
        let results := segs.enum.map (fun p =>
          let r := validateSegment env p.2
          (r.1, r.2.map (fun res => (p.1, res))))
        ((results.map Prod.fst).flatten,
          match firstError (results.map Prod.snd) with
          | some e => .error e
          | none => .ok (allOks (results.map Prod.snd)))
      else ([], .ok [])
    match validation with
    | (t1, .error e) => (t1, .serverError e.message)
    | (t1, .ok validationResults) =>
      let invalidSegments := validationResults.filter (fun r => !r.2.valid)
      if invalidSegments.length > 0 then
        (t1, .validationFailed (invalidSegments.map (fun seg => (seg.1, seg.2.errors))))
      else
        match env.postItinerary itinerary with
        | .error e => (t1 ++ [.postItinerary itinerary], .serverError e.message)
        | .ok createdItinerary =>
          if segs.length > 0 then
            let posts := segs.map (fun s => env.postSegment createdItinerary.id s)
            let ptrace := segs.map (fun s => Call.postSegment createdItinerary.id s)
            match firstError posts with
            | some e => (t1 ++ [.postItinerary itinerary] ++ ptrace, .serverError e.message)
            | none =>
              (t1 ++ [.postItinerary itinerary] ++ ptrace,
                .created createdItinerary (allOks posts))
          else
            (t1 ++ [.postItinerary itinerary], .created createdItinerary [])

/-- The per-segment quote computation of `GET /composite/quotes/...`
(`server.ts` lines 236-254), given the fetched city and rate list. -/
def segmentQuote (segment : Segment) (city : City) (rates : List Rate) : Quote :=
  let nights := jceil (jdivC
    (jsub (jDateNum segment.end_date) (jDateNum segment.start_date)) 86400000)
  let rate := rates.head?
  let pricePerNight : JNum :=
    match rate with
    | some r => parseFloatQ r.price_per_night
    | none => some 0
  { segment_id := segment.id
    city_name := city.name
    lodging_class := segment.lodging_class
    nights := nights
    price_per_night := pricePerNight
    currency := city.currency
    total := jmul pricePerNight nights }

/-- The per-segment async closure of `GET /composite/quotes/:itinerary_id`
(`server.ts` lines 230-255): city and rates fetched in parallel, then the
quote; an upstream rejection rejects the segment's promise. -/
def quoteStep (env : Env) (segment : Segment) : List Call × Except JsError Quote :=
  let cid := orUndef segment.city_id
  let lc := orUndef segment.lodging_class
  ([.getCity cid, .getRates cid lc],
    match env.getCity cid, env.getRates cid lc with
    | .error e, _ => .error e
    | .ok _, .error e => .error e
    | .ok city, .ok rates => Except.ok (segmentQuote segment city rates))

/-- Embedding of `GET /composite/quotes/:itinerary_id`, main dispatch
(`server.ts` lines 217-269). -/
def getQuotes (env : Env) (itineraryId : String) : List Call × QuotesResp :=
  match env.getSegments itineraryId with
  | .error e => ([.getSegments itineraryId], .serverError e.message)
  | .ok segments =>
    if segments.length = 0 then
      ([.getSegments itineraryId], .ok none (some 0) [])
    else
      let per := segments.map (quoteStep env)
      let trace := Call.getSegments itineraryId :: (per.map Prod.fst).flatten
      match firstError (per.map Prod.snd) with
      | some e => (trace, .serverError e.message)
      | none =>
        let segmentQuotes := allOks (per.map Prod.snd)
        (trace, .ok (some itineraryId)
          (jsum (segmentQuotes.map Quote.total)) segmentQuotes)

/-! ## Concrete sample worlds (used to instantiate the theorems) -/

/-- A sample city. -/
def cityParis : City :=
  { id := "paris", name := "Paris", country_code := "FR", currency := "EUR" }

/-- A sample rate with the spec scenario's numeric string. -/
def rate100 : Rate := { price_per_night := "100.00" }

/-- A benign upstream world every sample below overrides pointwise. -/
def envBase : Env :=
  { getCity := fun _ => .ok cityParis
    getLodgingClasses := .ok [.str "standard"]
    getRates := fun _ _ => .ok []
    getItineraryObj := fun _ => .ok []
    getSegments := fun _ => .ok []
    getSegmentsObj := fun _ => .ok []
    getCitiesPage := .ok (.bare [])
    getSeasonsPage := .ok (.bare [])
    postItinerary := fun _ => .ok { id := "it1" }
    postSegment := fun _ s => .ok s }

/-- The spec scenario segment: paris, standard, 2024-01-01 → 2024-01-04. -/
def segParis : Segment :=
  { id := some "s1", city_id := some "paris", lodging_class := some "standard",
    start_date := some "2024-01-01", end_date := some "2024-01-04" }

/-- The scenario segment with its dates reversed (end before start). -/
def segRev : Segment :=
  { id := some "s1", city_id := some "paris", lodging_class := some "standard",
    start_date := some "2024-01-04", end_date := some "2024-01-01" }

/-- The scenario segment with equal start and end dates. -/
def segSame : Segment :=
  { id := some "s1", city_id := some "paris", lodging_class := some "standard",
    start_date := some "2024-01-05", end_date := some "2024-01-05" }

/-- A segment referencing a city the destinations service does not have. -/
def segNowhere : Segment :=
  { id := some "s2", city_id := some "nowhere", lodging_class := some "standard",
    start_date := some "2024-01-01", end_date := some "2024-01-04" }

/-- The upstream failure of the C4 counterexample: a 500 whose request URL
happens to contain the digits 404 (the requested city id). -/
def errUrl404 : JsError :=
  .http 500 "Internal Server Error" "http://localhost:3001/cities/404"

/-- A world whose destinations service is broken (returns a 500) for the
city with id "404" and fine elsewhere. -/
def envCity404 : Env :=
  { envBase with getCity := fun cityId =>
      if cityId == "404" then .error errUrl404 else .ok cityParis }

/-- A world whose destinations service always fails with a network error. -/
def envNetDown : Env :=
  { envBase with getCity := fun _ => .error (.net "connection reset") }

/-- A destinations service with every city but "nowhere", which yields a
genuine 404. -/
def getCityNotFound (cityId : String) : Except JsError City :=
  if cityId == "nowhere" then
    .error (.http 404 "Not Found" "http://localhost:3001/cities/nowhere")
  else .ok cityParis

/-- A world where the city "nowhere" yields a genuine 404 and every other
upstream read succeeds. -/
def envNotFound : Env :=
  { envBase with getCity := getCityNotFound }

/-- The spec scenario world for quotes: one segment, one rate. -/
def envQuote : Env :=
  { envBase with
      getSegments := fun _ => .ok [segParis]
      getRates := fun _ _ => .ok [rate100] }

/-- The reversed-dates world for quotes. -/
def envQuoteRev : Env :=
  { envBase with
      getSegments := fun _ => .ok [segRev]
      getRates := fun _ _ => .ok [rate100] }

/-- The fetch-destinations scenario world: cities c1, c2; one season for
c1, delivered through the `{data: [...]}` wrapper. -/
def envDest : Env :=
  { envBase with
      getCitiesPage := .ok (.bare
        [{ id := "c1", name := "C1", country_code := "AA", currency := "AAA" },
         { id := "c2", name := "C2", country_code := "BB", currency := "BBB" }])
      getSeasonsPage := .ok (.wrapped [{ id := "s1", city_id := "c1" }]) }

/-- A lodging world listing the class as a bare string. -/
def envLcStr : Env :=
  { envBase with getLodgingClasses := .ok [.str "standard", .str "deluxe"] }

/-- The same lodging world with the object representation. -/
def envLcObj : Env :=
  { envBase with getLodgingClasses := .ok [.obj "standard", .obj "deluxe"] }

/-- A sample upstream itinerary object for the enrichment route. -/
def itinObjSample : JObj :=
  [("id", .str "it1"), ("name", .str "Trip"), ("owner", .str "ada")]

/-- A sample upstream segment object with an extra passenger field. -/
def segObjSample : JObj :=
  [("id", .str "s1"), ("city_id", .str "paris"),
   ("lodging_class", .str "standard"), ("note", .str "window seat")]

/-- The enrichment-route world serving the two objects above. -/
def envEnrich : Env :=
  { envBase with
      getItineraryObj := fun _ => .ok itinObjSample
      getSegmentsObj := fun _ => .ok [segObjSample]
      getRates := fun _ _ => .ok [rate100] }

/-- The create request of the C1 instance: a valid segment followed by one
whose city does not exist. -/
def reqMixed : CreateReq :=
  { itinerary := some { payload := "trip" }, segments := some [segParis, segNowhere] }

/-! ## Shared lemmas -/

theorem firstError_map_ok {α β : Type} (l : List α) (g : α → β) :
    firstError (l.map (fun a => Except.ok (g a))) = none := by
  induction l with
  | nil => rfl
  | cons x t ih => simpa [firstError] using ih

theorem allOks_map_ok {α β : Type} (l : List α) (g : α → β) :
    allOks (l.map (fun a => Except.ok (g a))) = l.map g := by
  induction l with
  | nil => rfl
  | cons x t ih => simpa [allOks] using ih

theorem jadd_comm (a b : JNum) : jadd a b = jadd b a := by
  cases a <;> cases b <;> simp [jadd, add_comm]

theorem jadd_assoc (a b c : JNum) : jadd (jadd a b) c = jadd a (jadd b c) := by
  cases a <;> cases b <;> cases c <;> simp [jadd, add_assoc]

theorem foldl_jadd_shift (l : List JNum) :
    ∀ a b : JNum, l.foldl jadd (jadd a b) = jadd b (l.foldl jadd a) := by
  induction l with
  | nil => intro a b; simpa using jadd_comm a b
  | cons x t ih =>
    intro a b
    simp only [List.foldl_cons]
    have h1 : jadd (jadd a b) x = jadd (jadd a x) b := by
      rw [jadd_assoc, jadd_comm b x, ← jadd_assoc]
    rw [h1, ih]

theorem jsum_cons (x : JNum) (l : List JNum) :
    jsum (x :: l) = jadd x (jsum l) := by
  simpa only [jsum, List.foldl_cons] using foldl_jadd_shift l (some 0) x

theorem lcMatch_eq_lcName (lc : LodgingClass) (name : String) :
    lcMatch lc name = (lcName lc == name) := by
  cases lc <;> rfl

theorem any_lcMatch (l : List LodgingClass) (name : String) :
    (l.any (fun lc => lcMatch lc name)) = ((l.map lcName).any (fun s => s == name)) := by
  induction l with
  | nil => rfl
  | cons x t ih =>
    simp only [List.any_cons, List.map_cons, lcMatch_eq_lcName] at ih ⊢
    rw [ih]

theorem seasonsByCity_eq_filter (ss : List Season) (k : String) :
    seasonsByCity ss k = ss.filter (fun s => s.city_id == k) := by
  have aux : ∀ (l : List Season) (acc : String → List Season),
      (l.foldl
        (fun acc season => fun k =>
          if k == season.city_id then acc k ++ [season] else acc k)
        acc) k
        = acc k ++ l.filter (fun s => s.city_id == k) := by
    intro l
    induction l with
    | nil => intro acc; simp
    | cons s t ih =>
      intro acc
      simp only [List.foldl_cons, List.filter_cons]
      rw [ih]
      by_cases h : s.city_id = k
      · simp [h]
      · have h1 : (k == s.city_id) = false := by simp [Ne.symm h]
        have h2 : (s.city_id == k) = false := by simp [h]
        simp [h1, h2]
  simpa [seasonsByCity] using aux ss (fun _ => [])

theorem getF_setF (o : JObj) (k : String) (v : JVal) (key : String) :
    getF (setF o k v) key = if key = k then some v else getF o key := by
  induction o with
  | nil =>
    by_cases h : key = k
    · simp [setF, getF, h]
    · simp [setF, getF, h, Ne.symm h]
  | cons p t ih =>
    obtain ⟨k1, v1⟩ := p
    by_cases h1 : k1 = k
    · subst h1
      by_cases h : key = k1
      · simp [setF, getF, h]
      · simp [setF, getF, h, Ne.symm h]
    · have h1f : (k1 == k) = false := by simp [h1]
      by_cases h : key = k1
      · subst h
        have hkk : (key = k) = False := by simp [h1]
        simp [setF, getF, h1f, hkk]
      · have h2f : (k1 == key) = false := by simp [Ne.symm h]
        simp [setF, getF, h1f, h2f, ih]

theorem startsWithChars_append (sub pre r : List Char)
    (h : startsWithChars sub pre = true) :
    startsWithChars sub (pre ++ r) = true := by
  induction sub generalizing pre with
  | nil => rfl
  | cons x xs ih =>
    cases pre with
    | nil => simp [startsWithChars] at h
    | cons y ys =>
      simp only [startsWithChars, Bool.and_eq_true] at h
      simp only [List.cons_append, startsWithChars, Bool.and_eq_true]
      exact ⟨h.1, ih ys h.2⟩

theorem hasSubChars_append_left (sub pre r : List Char)
    (h : hasSubChars sub pre = true) :
    hasSubChars sub (pre ++ r) = true := by
  induction pre with
  | nil =>
    cases sub with
    | nil => cases r <;> simp [hasSubChars, startsWithChars]
    | cons x xs => simp [hasSubChars, startsWithChars] at h
  | cons y t ih =>
    simp only [hasSubChars, Bool.or_eq_true] at h
    simp only [List.cons_append, hasSubChars, Bool.or_eq_true]
    cases h with
    | inl hs => exact Or.inl (startsWithChars_append _ _ _ hs)
    | inr ht => exact Or.inr (ih ht)

theorem http404_message_includes_404 (st u : String) :
    strIncludes (JsError.message (.http 404 st u)) "404" = true := by
  have hmsg : JsError.message (.http 404 st u)
      = "HTTP 404: " ++ (st ++ (" from " ++ u)) := by
    show "HTTP " ++ toString (404:Nat) ++ ": " ++ st ++ " from " ++ u
      = "HTTP 404: " ++ (st ++ (" from " ++ u))
    have : toString (404:Nat) = "404" := rfl
    rw [this]
    simp [String.ext_iff, String.data_append]
  rw [strIncludes, hmsg]
  have hlist : ("HTTP 404: " ++ (st ++ (" from " ++ u))).toList
      = "HTTP 404: ".toList ++ (st ++ (" from " ++ u)).toList := by
    simp [String.toList, String.data_append]
  rw [hlist]
  exact hasSubChars_append_left _ _ _ (by decide)

theorem quoteStep_ok (env : Env) (s : Segment) (city : City) (rates : List Rate)
    (hc : env.getCity (orUndef s.city_id) = .ok city)
    (hr : env.getRates (orUndef s.city_id) (orUndef s.lodging_class) = .ok rates) :
    quoteStep env s =
      ([.getCity (orUndef s.city_id),
        .getRates (orUndef s.city_id) (orUndef s.lodging_class)],
        .ok (segmentQuote s city rates)) := by
  simp [quoteStep, hc, hr]

theorem getQuotes_decomp (env : Env) (itineraryId : String) (segs : List Segment)
    (cityF : Segment → City) (ratesF : Segment → List Rate)
    (hseg : env.getSegments itineraryId = .ok segs) (hne : segs ≠ [])
    (hc : ∀ s ∈ segs, env.getCity (orUndef s.city_id) = .ok (cityF s))
    (hr : ∀ s ∈ segs,
      env.getRates (orUndef s.city_id) (orUndef s.lodging_class) = .ok (ratesF s)) :
    getQuotes env itineraryId =
      (Call.getSegments itineraryId ::
        (segs.map (fun s => [Call.getCity (orUndef s.city_id),
          Call.getRates (orUndef s.city_id) (orUndef s.lodging_class)])).flatten,
      .ok (some itineraryId)
        (jsum ((segs.map (fun s =>
          segmentQuote s (cityF s) (ratesF s))).map Quote.total))
        (segs.map (fun s => segmentQuote s (cityF s) (ratesF s)))) := by
  have hmap : segs.map (quoteStep env) = segs.map (fun s =>
      (([Call.getCity (orUndef s.city_id),
        Call.getRates (orUndef s.city_id) (orUndef s.lodging_class)] : List Call),
        Except.ok (segmentQuote s (cityF s) (ratesF s)))) :=
    List.map_congr_left (fun s hs => quoteStep_ok env s _ _ (hc s hs) (hr s hs))
  have hlen : ¬ segs.length = 0 := by
    simpa [List.length_eq_zero] using hne
  unfold getQuotes
  split
  · next e he => rw [hseg] at he; cases he
  · next segments hsegments =>
    rw [hseg] at hsegments
    injection hsegments with h
    subst h
    rw [if_neg hlen, hmap]
    simp only [List.map_map]
    have hsnd : (Prod.snd ∘ fun s =>
        (([Call.getCity (orUndef s.city_id),
          Call.getRates (orUndef s.city_id) (orUndef s.lodging_class)] : List Call),
          (Except.ok (segmentQuote s (cityF s) (ratesF s)) : Except JsError Quote)))
        = fun s => (Except.ok (segmentQuote s (cityF s) (ratesF s)) : Except JsError Quote) := rfl
    have hfst : (Prod.fst ∘ fun s =>
        (([Call.getCity (orUndef s.city_id),
          Call.getRates (orUndef s.city_id) (orUndef s.lodging_class)] : List Call),
          (Except.ok (segmentQuote s (cityF s) (ratesF s)) : Except JsError Quote)))
        = fun s => ([Call.getCity (orUndef s.city_id),
          Call.getRates (orUndef s.city_id) (orUndef s.lodging_class)] : List Call) := rfl
    rw [hsnd, hfst,
      firstError_map_ok segs (fun s => segmentQuote s (cityF s) (ratesF s)),
      allOks_map_ok segs (fun s => segmentQuote s (cityF s) (ratesF s))]
    simp [List.map_map]

theorem validateSegment_trace_sub (env : Env) (segment : Segment) :
    (validateSegment env segment).1 ⊆
      [Call.getCity (orUndef segment.city_id), Call.getLodgingClasses] := by
  simp only [validateSegment]
  split
  · next t1 e heq =>
    have h1 := congrArg Prod.fst heq
    simp only [validateCityExists, apply_ite Prod.fst] at h1
    subst h1
    by_cases hb : truthy segment.city_id <;> simp [hb]
  · next t1 errs1 heq =>
    have h1 := congrArg Prod.fst heq
    simp only [validateCityExists, apply_ite Prod.fst] at h1
    split
    · next t2 e2 heq2 =>
      have h2 := congrArg Prod.fst heq2
      simp only [validateLodgingClass, apply_ite Prod.fst] at h2
      subst h1; subst h2
      apply List.append_subset.mpr
      constructor
      · by_cases hb : truthy segment.city_id <;> simp [hb]
      · by_cases hb : truthy segment.lodging_class <;> simp [hb]
    · next t2 errs2 heq2 =>
      have h2 := congrArg Prod.fst heq2
      simp only [validateLodgingClass, apply_ite Prod.fst] at h2
      subst h1; subst h2
      apply List.append_subset.mpr
      constructor
      · by_cases hb : truthy segment.city_id <;> simp [hb]
      · by_cases hb : truthy segment.lodging_class <;> simp [hb]

theorem validateSegment_trace_no_write (env : Env) (segment : Segment) (c : Call)
    (hc : c ∈ (validateSegment env segment).1) : c.isWrite = false := by
  have h := validateSegment_trace_sub env segment hc
  simp only [List.mem_cons, List.mem_singleton] at h
  rcases h with rfl | rfl | hfalse
  · rfl
  · rfl
  · simp at hfalse

theorem parseFloatQ_100 : parseFloatQ "100.00" = some 100 := by
  have h : parseFloatQ "100.00"
      = some (1 * (((100 : ℕ) : ℚ) + ((0 : ℕ) : ℚ) / (10 : ℚ) ^ 2)) := rfl
  rw [h]; norm_num

theorem jDateNum_jan01 : jDateNum (some "2024-01-01") = some ((1704067200000 : ℤ) : ℚ) := by
  have h : jDate (some "2024-01-01") = some 1704067200000 := by decide
  simp [jDateNum, h]

theorem jDateNum_jan04 : jDateNum (some "2024-01-04") = some ((1704326400000 : ℤ) : ℚ) := by
  have h : jDate (some "2024-01-04") = some 1704326400000 := by decide
  simp [jDateNum, h]

theorem segmentQuote_paris :
    segmentQuote segParis cityParis [rate100] =
      { segment_id := some "s1", city_name := "Paris",
        lodging_class := some "standard", nights := some 3,
        price_per_night := some 100, currency := "EUR", total := some 300 } := by
  have hceil : (⌈(((1704326400000 : ℤ) : ℚ) - ((1704067200000 : ℤ) : ℚ)) / 86400000⌉ : ℤ)
      = 3 := by
    rw [Int.ceil_eq_iff]; norm_num
  simp only [segmentQuote, segParis, cityParis, rate100, List.head?,
    jDateNum_jan01, jDateNum_jan04, jsub, jdivC, jceil, jmul, parseFloatQ_100, hceil]
  norm_num

theorem segmentQuote_rev :
    segmentQuote segRev cityParis [rate100] =
      { segment_id := some "s1", city_name := "Paris",
        lodging_class := some "standard", nights := some (-3),
        price_per_night := some 100, currency := "EUR", total := some (-300) } := by
  have hceil : (⌈(((1704067200000 : ℤ) : ℚ) - ((1704326400000 : ℤ) : ℚ)) / 86400000⌉ : ℤ)
      = -3 := by
    rw [Int.ceil_eq_iff]; norm_num
  simp only [segmentQuote, segRev, cityParis, rate100, List.head?,
    jDateNum_jan01, jDateNum_jan04, jsub, jdivC, jceil, jmul, parseFloatQ_100, hceil]
  norm_num

/-! ## Claim theorems -/

/-- C8: segment validation accumulates all applicable errors without
short-circuiting: a segment missing `city_id`, `lodging_class`,
`start_date` and `end_date` all at once is invalid with exactly the four
per-field errors, and no upstream call at all is issued for it
(its call trace is empty), whatever the upstream world is. -/
theorem c8_validate_missing_fields (env : Env) :
    validateSegment env (Segment.mk none none none none none) =
      ([], .ok (SegResult.mk false
        ["Segment missing city_id", "Segment missing lodging_class",
          "Segment missing start_date", "Segment missing end_date"])) := rfl

/-- C3: whenever both dates are present and parse, and the end date is on
or before the start date, a segment validation that completes reports the
date-ordering error in its error list — regardless of the remaining
fields' validity. -/
theorem c3_date_order_error_reported (env : Env) (segment : Segment) (r : SegResult)
    (sd ed : String) (sv ev : Int)
    (hdone : (validateSegment env segment).2 = .ok r)
    (hs : segment.start_date = some sd) (he : segment.end_date = some ed)
    (hsv : parseDateMs sd = some sv) (hev : parseDateMs ed = some ev)
    (hsne : sd ≠ "") (hene : ed ≠ "")
    (hle : ev ≤ sv) :
    "end_date must be after start_date" ∈ r.errors := by
  have hts : truthy segment.start_date = true := by simp [hs, truthy, hsne]
  have hte : truthy segment.end_date = true := by simp [he, truthy, hene]
  have hjs : jDate segment.start_date = some sv := by simp [jDate, hs, hsv]
  have hje : jDate segment.end_date = some ev := by simp [jDate, he, hev]
  simp only [validateSegment] at hdone
  split at hdone
  · next t1 e heq => simp at hdone
  · next t1 errs1 heq =>
    split at hdone
    · next t2 e2 heq2 => simp at hdone
    · next t2 errs2 heq2 =>
      simp only [hts, hte, Bool.and_self, if_true, hjs, hje, if_pos hle] at hdone
      injection hdone with hr
      subst hr
      simp

/-- Witness for C3: equal start and end dates on an otherwise valid
segment, in a benign world. -/
theorem c3_witness :
    (validateSegment envBase segSame).2 =
      .ok { valid := false, errors := ["end_date must be after start_date"] } ∧
    "end_date must be after start_date" ∈
      (SegResult.mk false ["end_date must be after start_date"]).errors := by
  constructor
  · decide
  · exact c3_date_order_error_reported envBase segSame
      { valid := false, errors := ["end_date must be after start_date"] }
      "2024-01-05" "2024-01-05" 1704412800000 1704412800000
      (by decide) rfl rfl (by decide) (by decide)
      (by decide) (by decide) (by decide)

/-- C5: the lodging-class membership check is blind to the representation
of each class (bare string vs `{class_name}` object): worlds whose class
lists agree on the underlying names give identical results; and when the
name is absent the result is the structured invalid value, not a thrown
error. -/
theorem c5_lodging_representation (env1 env2 : Env) (l1 l2 : List LodgingClass)
    (name : String)
    (h1 : env1.getLodgingClasses = .ok l1) (h2 : env2.getLodgingClasses = .ok l2)
    (hn : l1.map lcName = l2.map lcName) :
    (validateLodgingClass env1 name).2 = (validateLodgingClass env2 name).2 ∧
    (name ∉ l1.map lcName →
      (validateLodgingClass env1 name).2 =
        .ok { valid := false,
              error := some ("Lodging class '" ++ name ++ "' does not exist") }) := by
  constructor
  · simp only [validateLodgingClass, h1, h2, any_lcMatch, hn]
  · intro habs
    have hfalse : ((l1.map lcName).any fun s => s == name) = false := by
      rw [List.any_eq_false]
      intro s hsmem
      simp only [beq_iff_eq]
      intro hcontra
      exact habs (hcontra ▸ hsmem)
    simp only [validateLodgingClass, h1, any_lcMatch, hfalse, Bool.false_eq_true,
      if_false]

/-- Witness for C5: the same two class names listed as bare strings in one
world and as objects in another; "deluxe" is found in both, "suite" is a
structured invalid result. -/
theorem c5_witness :
    (validateLodgingClass envLcStr "deluxe").2 =
      (validateLodgingClass envLcObj "deluxe").2 ∧
    (validateLodgingClass envLcStr "suite").2 =
      .ok { valid := false, error := some "Lodging class 'suite' does not exist" } := by
  constructor
  · exact (c5_lodging_representation envLcStr envLcObj
      [.str "standard", .str "deluxe"] [.obj "standard", .obj "deluxe"]
      "deluxe" rfl rfl (by decide)).1
  · exact (c5_lodging_representation envLcStr envLcObj
      [.str "standard", .str "deluxe"] [.obj "standard", .obj "deluxe"]
      "suite" rfl rfl (by decide)).2 (by decide)

/-- C6: when the itinerary's fetched segment list is empty, compute-quotes
answers `{total: 0, segments: []}` (with no `itinerary_id` field)
immediately, and its trace holds no pricing and no destinations call —
only the single segments read. -/
theorem c6_quotes_empty_no_calls (env : Env) (itineraryId : String)
    (h : env.getSegments itineraryId = .ok []) :
    getQuotes env itineraryId = ([.getSegments itineraryId], .ok none (some 0) []) ∧
    ∀ c ∈ (getQuotes env itineraryId).1,
      c.service ≠ Svc.pricing ∧ c.service ≠ Svc.destinations := by
  have hq : getQuotes env itineraryId
      = ([.getSegments itineraryId], .ok none (some 0) []) := by
    unfold getQuotes
    split
    · next e he => rw [h] at he; cases he
    · next segments hsg =>
      rw [h] at hsg
      injection hsg with h2
      subst h2
      simp
  refine ⟨hq, ?_⟩
  intro c hc
  rw [hq] at hc
  simp only [List.mem_singleton] at hc
  subst hc
  exact ⟨by simp [Call.service], by simp [Call.service]⟩

/-- Witness for C6: an itinerary with no segments in the benign world. -/
theorem c6_witness :
    getQuotes envBase "empty-itinerary"
      = ([.getSegments "empty-itinerary"], .ok none (some 0) []) :=
  (c6_quotes_empty_no_calls envBase "empty-itinerary" rfl).1

/-- C7: fetch-destinations accepts bare or `{data: [...]}`-wrapped
upstream responses (only the unwrapped contents matter), and enriches each
city, in order, with exactly its seasons in upstream order — the empty
list for a city with none. -/
theorem c7_destinations_enrichment (env : Env) (cp : Paged City) (sp : Paged Season)
    (h1 : env.getCitiesPage = .ok cp) (h2 : env.getSeasonsPage = .ok sp) :
    getDestinations env = ([.getCitiesPage, .getSeasonsPage],
      .ok (cp.unwrap.map (fun city =>
        (city, sp.unwrap.filter (fun s => s.city_id == city.id))))) := by
  unfold getDestinations
  rw [h1, h2]
  simp [seasonsByCity_eq_filter]

/-- Witness for C7: cities c1, c2 (bare response) and one season for c1
(wrapped response): c1 carries its season, c2 the empty list. -/
theorem c7_witness :
    getDestinations envDest = ([.getCitiesPage, .getSeasonsPage],
      .ok [({ id := "c1", name := "C1", country_code := "AA", currency := "AAA" },
            [{ id := "s1", city_id := "c1" }]),
           ({ id := "c2", name := "C2", country_code := "BB", currency := "BBB" },
            [])]) := by
  have h := c7_destinations_enrichment envDest
    (.bare [{ id := "c1", name := "C1", country_code := "AA", currency := "AAA" },
            { id := "c2", name := "C2", country_code := "BB", currency := "BBB" }])
    (.wrapped [{ id := "s1", city_id := "c1" }]) rfl rfl
  rw [h]
  decide

/-- C4 counterexample: the city check keys on the substring "404" of the
thrown error's message, and the message embeds the request URL — so a 500
(not a not-found) for the city with id "404" is converted into the
structured invalid result instead of propagating unchanged. -/
theorem c4_counterexample :
    envCity404.getCity "404" = .error errUrl404 ∧
    errUrl404 = .http 500 "Internal Server Error" "http://localhost:3001/cities/404" ∧
    (validateCityExists envCity404 "404").2 =
      .ok { valid := false, error := some "City with ID '404' does not exist" } ∧
    (validateCityExists envCity404 "404").2 ≠ .error errUrl404 := by
  refine ⟨rfl, rfl, ?_, ?_⟩
  · decide
  · decide

/-- C4 (amended): the city existence check returns the structured invalid
result exactly when the upstream failure's message contains the substring
"404" (a genuine 404 status always does, since the message starts
"HTTP 404: ..."), and a failure whose message lacks "404" propagates
unchanged out of the check. -/
theorem c4_city_check_amended (env : Env) (cityId : String) (e : JsError)
    (h : env.getCity cityId = .error e) :
    (strIncludes e.message "404" = true →
      (validateCityExists env cityId).2 =
        .ok { valid := false,
              error := some ("City with ID '" ++ cityId ++ "' does not exist") }) ∧
    (strIncludes e.message "404" = false →
      (validateCityExists env cityId).2 = .error e) ∧
    (∀ st u, e = .http 404 st u →
      (validateCityExists env cityId).2 =
        .ok { valid := false,
              error := some ("City with ID '" ++ cityId ++ "' does not exist") }) := by
  refine ⟨?_, ?_, ?_⟩
  · intro hin
    simp [validateCityExists, h, hin]
  · intro hout
    simp [validateCityExists, h, hout]
  · rintro st u rfl
    simp [validateCityExists, h, http404_message_includes_404]

/-- Witness for the amended C4: a network failure (no "404" anywhere)
propagates unchanged; a genuine upstream 404 becomes the structured
invalid result. -/
theorem c4_amended_witness :
    (validateCityExists envNetDown "paris").2 = .error (.net "connection reset") ∧
    (validateCityExists envNotFound "nowhere").2 =
      .ok { valid := false, error := some "City with ID 'nowhere' does not exist" } := by
  constructor
  · exact (c4_city_check_amended envNetDown "paris"
      (.net "connection reset") rfl).2.1 (by decide)
  · exact (c4_city_check_amended envNotFound "nowhere"
      (.http 404 "Not Found" "http://localhost:3001/cities/nowhere") rfl).2.2
      "Not Found" "http://localhost:3001/cities/nowhere" rfl

/-- C2: with a non-empty fetched segment list and successful per-segment
city and rate fetches, compute-quotes answers, per segment, exactly
`segmentQuote` — nights the ceiling of the end/start date difference in
whole days, price-per-night the first rate's parsed numeric string (0 when
the rate list is empty), segment total their product — and a grand total
that is the sum of the segment totals. -/
theorem c2_quotes_formula (env : Env) (itineraryId : String) (segs : List Segment)
    (cityF : Segment → City) (ratesF : Segment → List Rate)
    (hseg : env.getSegments itineraryId = .ok segs) (hne : segs ≠ [])
    (hc : ∀ s ∈ segs, env.getCity (orUndef s.city_id) = .ok (cityF s))
    (hr : ∀ s ∈ segs,
      env.getRates (orUndef s.city_id) (orUndef s.lodging_class) = .ok (ratesF s)) :
    (getQuotes env itineraryId).2 =
      .ok (some itineraryId)
        (jsum ((segs.map (fun s =>
          segmentQuote s (cityF s) (ratesF s))).map Quote.total))
        (segs.map (fun s => segmentQuote s (cityF s) (ratesF s))) := by
  rw [getQuotes_decomp env itineraryId segs cityF ratesF hseg hne hc hr]

/-- Witness for C2: the spec scenario — one segment paris/standard from
2024-01-01 to 2024-01-04 with one rate "100.00" gives nights 3,
price-per-night 100, total 300, grand total 300. -/
theorem c2_witness :
    (getQuotes envQuote "it1").2 =
      .ok (some "it1") (some 300)
        [{ segment_id := some "s1", city_name := "Paris",
           lodging_class := some "standard", nights := some 3,
           price_per_night := some 100, currency := "EUR", total := some 300 }] := by
  have h := c2_quotes_formula envQuote "it1" [segParis]
    (fun _ => cityParis) (fun _ => [rate100]) rfl (by simp)
    (fun s _ => rfl) (fun s _ => rfl)
  rw [h]
  simp [segmentQuote_paris, jsum, jadd]

/-- C9: the quotes read path applies no date-ordering validation: a
fetched segment whose end date is on or before its start date is still
quoted — nights is the ceiling of the non-positive day difference, hence
at most 0, its total is at most 0 whenever the offered price is
nonnegative, and that total is summed into the grand total. -/
theorem c9_quotes_no_date_validation (env : Env) (itineraryId : String)
    (s0 : Segment) (rest : List Segment)
    (cityF : Segment → City) (ratesF : Segment → List Rate)
    (hseg : env.getSegments itineraryId = .ok (s0 :: rest))
    (hc : ∀ s ∈ s0 :: rest, env.getCity (orUndef s.city_id) = .ok (cityF s))
    (hr : ∀ s ∈ s0 :: rest,
      env.getRates (orUndef s.city_id) (orUndef s.lodging_class) = .ok (ratesF s))
    (sd ed : String) (sv ev : Int)
    (hs : s0.start_date = some sd) (he : s0.end_date = some ed)
    (hsv : parseDateMs sd = some sv) (hev : parseDateMs ed = some ev)
    (hle : ev ≤ sv)
    (p : ℚ) (hp : 0 ≤ p)
    (hprice : (segmentQuote s0 (cityF s0) (ratesF s0)).price_per_night = some p) :
    ∃ n : ℤ, ∃ t : ℚ, n ≤ 0 ∧ t ≤ 0 ∧
      (segmentQuote s0 (cityF s0) (ratesF s0)).nights = some (n : ℚ) ∧
      (segmentQuote s0 (cityF s0) (ratesF s0)).total = some t ∧
      (getQuotes env itineraryId).2 =
        .ok (some itineraryId)
          (jadd (some t)
            (jsum ((rest.map (fun s =>
              segmentQuote s (cityF s) (ratesF s))).map Quote.total)))
          ((s0 :: rest).map (fun s => segmentQuote s (cityF s) (ratesF s))) := by
  have hnights : (segmentQuote s0 (cityF s0) (ratesF s0)).nights
      = some ((⌈(((ev : ℚ) - (sv : ℚ)) / 86400000 : ℚ)⌉ : ℤ) : ℚ) := by
    simp [segmentQuote, jDateNum, jDate, hs, he, hsv, hev, jsub, jdivC, jceil]
  have hq0 : (((ev : ℚ) - (sv : ℚ)) / 86400000 : ℚ) ≤ 0 := by
    apply div_nonpos_of_nonpos_of_nonneg
    · have : ((ev : ℚ)) ≤ ((sv : ℚ)) := by exact_mod_cast hle
      linarith
    · norm_num
  have hn0 : (⌈(((ev : ℚ) - (sv : ℚ)) / 86400000 : ℚ)⌉ : ℤ) ≤ 0 :=
    Int.ceil_le.mpr (by exact_mod_cast hq0)
  have htot : (segmentQuote s0 (cityF s0) (ratesF s0)).total
      = jmul ((segmentQuote s0 (cityF s0) (ratesF s0)).price_per_night)
             ((segmentQuote s0 (cityF s0) (ratesF s0)).nights) := rfl
  refine ⟨⌈(((ev : ℚ) - (sv : ℚ)) / 86400000 : ℚ)⌉,
    p * ((⌈(((ev : ℚ) - (sv : ℚ)) / 86400000 : ℚ)⌉ : ℤ) : ℚ), hn0, ?_, hnights, ?_, ?_⟩
  · apply mul_nonpos_iff.mpr
    exact Or.inl ⟨hp, by exact_mod_cast hn0⟩
  · rw [htot, hprice, hnights]
    simp [jmul]
  · rw [getQuotes_decomp env itineraryId (s0 :: rest) cityF ratesF hseg
      (by simp) hc hr]
    simp only [List.map_cons, jsum_cons]
    rw [htot, hprice, hnights]
    simp [jmul]

/-- Witness for C9: the scenario segment with its dates reversed
(2024-01-04 → 2024-01-01) at rate "100.00": it is quoted, not rejected,
with nights -3, total -300, and grand total -300. -/
theorem c9_witness :
    (segmentQuote segRev cityParis [rate100]).nights = some (-3) ∧
    (segmentQuote segRev cityParis [rate100]).total = some (-300) ∧
    (getQuotes envQuoteRev "it1").2 =
      .ok (some "it1") (some (-300)) [segmentQuote segRev cityParis [rate100]] := by
  have h := c9_quotes_no_date_validation envQuoteRev "it1" segRev []
    (fun _ => cityParis) (fun _ => [rate100]) rfl (fun s _ => rfl) (fun s _ => rfl)
    "2024-01-04" "2024-01-01" 1704326400000 1704067200000
    rfl rfl (by decide) (by decide) (by decide)
    100 (by norm_num) (by simp [segmentQuote_rev])
  obtain ⟨n, t, hn, ht, hnights, htotal, hres⟩ := h
  have ht300 : t = -300 := by
    simp [segmentQuote_rev] at htotal
    exact htotal.symm
  subst ht300
  refine ⟨by simp [segmentQuote_rev], by simp [segmentQuote_rev], ?_⟩
  rw [hres]
  simp [jsum, jadd]

/-- C1: when the create request has a non-empty segment list, every
segment's validation completes, and at least one is invalid, the whole
operation aborts before any upstream write — its trace has no POST — and
the response is the 400 validation failure listing, for exactly the
invalid segments and in strictly increasing original-index order, each
segment's original index with its full error list. -/
theorem c1_create_aborts_on_invalid (env : Env) (req : CreateReq)
    (it : ItinData) (segs : List Segment) (res : Segment → SegResult)
    (hit : req.itinerary = some it)
    (hsegs : req.segments = some segs) (hne : segs ≠ [])
    (hok : ∀ s ∈ segs, (validateSegment env s).2 = .ok (res s))
    (hbad : ∃ s ∈ segs, (res s).valid = false) :
    (createItinerary env req).2 = .validationFailed
      (((segs.map res).enum.filter (fun p => !p.2.valid)).map
        (fun p => (p.1, p.2.errors))) ∧
    ((((segs.map res).enum.filter (fun p => !p.2.valid)).map
        (fun p => (p.1, p.2.errors))).map Prod.fst).Pairwise (· < ·) ∧
    (∀ c ∈ (createItinerary env req).1, c.isWrite = false) := by
  have hrs : req.segs = segs := by simp [CreateReq.segs, hsegs]
  have hlen : segs.length > 0 := List.length_pos.mpr hne
  have hsnd : (segs.enum.map (fun p =>
      ((validateSegment env p.2).1,
        Except.map (fun r => (p.1, r)) (validateSegment env p.2).2))).map Prod.snd
      = segs.enum.map (fun p =>
          Except.ok (ε := JsError) ((fun p => (p.1, res p.2)) p)) := by
    rw [List.map_map]
    apply List.map_congr_left
    intro p hp
    have hmem : p.2 ∈ segs := by
      rw [← List.enum_map_snd segs]
      exact List.mem_map_of_mem Prod.snd hp
    simp [Function.comp, hok p.2 hmem, Except.map]
  have henum : (segs.map res).enum = segs.enum.map (fun p => (p.1, res p.2)) := by
    rw [List.enum_map]
    apply List.map_congr_left
    intro p _
    cases p
    rfl
  have hinv : 0 < ((segs.enum.map (fun p => (p.1, res p.2))).filter
      (fun r => !r.2.valid)).length := by
    obtain ⟨s, hsmem, hsval⟩ := hbad
    obtain ⟨p, hp, hps⟩ : ∃ p ∈ segs.enum, Prod.snd p = s :=
      List.mem_map.mp (by rw [List.enum_map_snd]; exact hsmem)
    obtain ⟨i, s2⟩ := p
    simp only at hps
    subst hps
    apply List.length_pos.mpr
    apply List.ne_nil_of_mem (a := (i, res s2))
    apply List.mem_filter.mpr
    exact ⟨List.mem_map_of_mem _ hp, by simp [hsval]⟩
  have key : createItinerary env req
      = (((segs.enum.map (fun p =>
            ((validateSegment env p.2).1,
              Except.map (fun r => (p.1, r)) (validateSegment env p.2).2))).map
                Prod.fst).flatten,
        .validationFailed
          (((segs.enum.map (fun p => (p.1, res p.2))).filter
            (fun r => !r.2.valid)).map (fun seg => (seg.1, seg.2.errors)))) := by
    simp only [createItinerary, hit, hrs]
    rw [if_pos hlen]
    rw [hsnd, firstError_map_ok segs.enum (fun p => (p.1, res p.2)),
      allOks_map_ok segs.enum (fun p => (p.1, res p.2))]
    simp only []
    rw [if_pos hinv]
  refine ⟨?_, ?_, ?_⟩
  · rw [key, henum]
  · rw [henum]
    have hfsteq : ((((segs.enum.map (fun p => (p.1, res p.2))).filter
        (fun p => !p.2.valid)).map (fun p => (p.1, p.2.errors))).map Prod.fst)
        = ((segs.enum.map (fun p => (p.1, res p.2))).filter
            (fun p => !p.2.valid)).map Prod.fst := by
      rw [List.map_map]
      rfl
    rw [hfsteq]
    have hsubl : List.Sublist
        (((segs.enum.map (fun p => (p.1, res p.2))).filter
          (fun p => !p.2.valid)).map Prod.fst)
        ((segs.enum.map (fun p => (p.1, res p.2))).map Prod.fst) :=
      (List.filter_sublist _).map Prod.fst
    have hrange : (segs.enum.map (fun p => (p.1, res p.2))).map Prod.fst
        = List.range segs.length := by
      rw [List.map_map]
      have : (Prod.fst ∘ fun p : Nat × Segment => (p.1, res p.2)) = Prod.fst := rfl
      rw [this, List.enum_map_fst]
    rw [hrange] at hsubl
    exact List.Pairwise.sublist hsubl (List.pairwise_lt_range _)
  · intro c hc
    rw [key] at hc
    simp only [List.map_map] at hc
    rw [List.mem_flatten] at hc
    obtain ⟨l, hl, hcl⟩ := hc
    rw [List.mem_map] at hl
    obtain ⟨p, hp, hpl⟩ := hl
    apply validateSegment_trace_no_write env p.2 c
    rw [← hpl] at hcl
    exact hcl

/-- Witness for C1: a valid segment followed by one whose city does not
exist — the create answers the 400 validation failure naming index 1 with
its full error list, and its trace holds no write. -/
theorem c1_witness :
    (createItinerary envNotFound reqMixed).2 =
      .validationFailed [(1, ["City with ID 'nowhere' does not exist"])] ∧
    (createItinerary envNotFound reqMixed).1.all (fun c => !c.isWrite) = true := by
  have h := c1_create_aborts_on_invalid envNotFound reqMixed
    { payload := "trip" } [segParis, segNowhere]
    (fun s => if s = segNowhere then
        ⟨false, ["City with ID 'nowhere' does not exist"]⟩
      else ⟨true, []⟩)
    rfl rfl (by decide) (by decide)
    ⟨segNowhere, by decide, by decide⟩
  refine ⟨?_, ?_⟩
  · rw [h.1]
    decide
  · rw [List.all_eq_true]
    intro c hc
    simp [h.2.2 c hc]

/-- C10: fetch-composite-itinerary preserves every field of each upstream
segment object except the four enrichment keys it sets or overwrites
(`city_name`, `country_code`, `currency`, `rates`), and preserves every
field of the fetched itinerary except `segments`, which it replaces with
the enriched segment sequence. -/
theorem c10_enrich_frame (env : Env) (itineraryId : String)
    (itin : JObj) (segObjs : List JObj)
    (cityF : JObj → City) (ratesF : JObj → List Rate)
    (h1 : env.getItineraryObj itineraryId = .ok itin)
    (h2 : env.getSegmentsObj itineraryId = .ok segObjs)
    (hc : ∀ so ∈ segObjs,
      env.getCity (strOf (getF so "city_id")) = .ok (cityF so))
    (hr : ∀ so ∈ segObjs,
      env.getRates (strOf (getF so "city_id"))
        (strOf (getF so "lodging_class")) = .ok (ratesF so)) :
    (getCompositeItinerary env itineraryId).2 =
      .ok (setF itin "segments" (.arr (segObjs.map (fun so =>
        JVal.obj (enrichFields (cityF so) (ratesF so) so))))) ∧
    (∀ k, k ≠ "segments" →
      getF (setF itin "segments" (.arr (segObjs.map (fun so =>
        JVal.obj (enrichFields (cityF so) (ratesF so) so))))) k = getF itin k) ∧
    (∀ (so : JObj) (city : City) (rates : List Rate) (k : String),
      k ∉ (["city_name", "country_code", "currency", "rates"] : List String) →
      getF (enrichFields city rates so) k = getF so k) ∧
    (∀ (so : JObj) (city : City) (rates : List Rate),
      getF (enrichFields city rates so) "city_name" = some (.str city.name) ∧
      getF (enrichFields city rates so) "country_code"
        = some (.str city.country_code) ∧
      getF (enrichFields city rates so) "currency" = some (.str city.currency) ∧
      getF (enrichFields city rates so) "rates"
        = some (.arr (rates.map rateJ))) := by
  have hmap : segObjs.map (enrichSegment env) = segObjs.map (fun so =>
      (([Call.getCity (strOf (getF so "city_id")),
        Call.getRates (strOf (getF so "city_id"))
          (strOf (getF so "lodging_class"))] : List Call),
        (Except.ok (enrichFields (cityF so) (ratesF so) so)
          : Except JsError JObj))) := by
    apply List.map_congr_left
    intro so hso
    simp [enrichSegment, hc so hso, hr so hso]
  refine ⟨?_, ?_, ?_, ?_⟩
  · unfold getCompositeItinerary
    rw [h1, h2]
    simp only [hmap, List.map_map]
    have hsnd : (Prod.snd ∘ fun so =>
        (([Call.getCity (strOf (getF so "city_id")),
          Call.getRates (strOf (getF so "city_id"))
            (strOf (getF so "lodging_class"))] : List Call),
          (Except.ok (enrichFields (cityF so) (ratesF so) so)
            : Except JsError JObj)))
        = fun so => (Except.ok (enrichFields (cityF so) (ratesF so) so)
            : Except JsError JObj) := rfl
    rw [hsnd,
      firstError_map_ok segObjs (fun so => enrichFields (cityF so) (ratesF so) so),
      allOks_map_ok segObjs (fun so => enrichFields (cityF so) (ratesF so) so)]
    simp only [List.map_map]
    rfl
  · intro k hk
    rw [getF_setF]
    simp [hk]
  · intro so city rates k hk
    simp only [List.mem_cons, List.mem_singleton, not_or] at hk
    obtain ⟨hk1, hk2, hk3, hk4⟩ := hk
    simp [enrichFields, getF_setF, hk1, hk2, hk3, hk4]
  · intro so city rates
    refine ⟨?_, ?_, ?_, ?_⟩ <;> simp [enrichFields, getF_setF]

/-- Witness for C10: a sample itinerary and one segment carrying an extra
"note" field — the note survives enrichment, the itinerary's "name"
survives the response merge, and "city_name" is set from the city. -/
theorem c10_witness :
    (getCompositeItinerary envEnrich "it1").2 =
      .ok (setF itinObjSample "segments"
        (.arr [JVal.obj (enrichFields cityParis [rate100] segObjSample)])) ∧
    getF (enrichFields cityParis [rate100] segObjSample) "note"
      = some (.str "window seat") ∧
    getF (enrichFields cityParis [rate100] segObjSample) "city_name"
      = some (.str "Paris") ∧
    getF (setF itinObjSample "segments"
        (.arr [JVal.obj (enrichFields cityParis [rate100] segObjSample)])) "name"
      = some (.str "Trip") := by
  have h := c10_enrich_frame envEnrich "it1" itinObjSample [segObjSample]
    (fun _ => cityParis) (fun _ => [rate100]) rfl rfl
    (fun so _ => rfl) (fun so _ => rfl)
  refine ⟨h.1, ?_, ?_, ?_⟩
  · have hn := h.2.2.1 segObjSample cityParis [rate100] "note" (by decide)
    rw [hn]
    rfl
  · exact (h.2.2.2 segObjSample cityParis [rate100]).1
  · have hm := h.2.1 "name" (by decide)
    exact hm.trans rfl
